import Mathlib

/-!
Verification of the audit-log formatter (`lms/djangoapps/commerce/utils.py`)
and the development-server launcher (`pavelib/servers.py`).

The Python code is embedded shallowly:

* `audit_log` sorts its keyword arguments by key, renders each pair as
  `key="value"`, joins the pairs with a comma and a space, puts the event
  name and a colon-space separator in front, and emits exactly one
  info-level log line.  Keyword arguments are modelled as an association
  list of string keys and `PyValue` values (a Python dict cannot hold
  duplicate keys, so callers always supply lists whose keys are pairwise
  distinct); the default string conversion applied by the format call is
  `PyValue.render`.  Python compares strings code point by code point, so
  the sort key order is modelled by the structural comparison `strLeb` on
  the character data.  The logging sink is modelled by explicit state
  passing: `LogState` holds the list of lines emitted so far and
  `audit_log` returns the unit value (Python `None`) together with the new
  sink state.

* `run_server` validates the `system` argument, substitutes default
  settings and ports, assembles the argument lists for the asset task and
  the `runserver` management command, and hands them to external helpers
  (`call_task`, `django_cmd`, `run_process`) that live outside this
  fragment.  The embedding therefore records the argument lists the
  function builds: `RunServerResult.err` models the early `exit(1)` path,
  taken before any argument list is built, and `RunServerResult.ok`
  carries the asset-task arguments (when that task is invoked) and the
  management-command arguments.
-/

/-- A Python value passed as a keyword argument: the fragment only needs
strings and integers, both rendered by the default string conversion. -/
inductive PyValue where
  | str (s : String)
  | int (n : Int)
deriving DecidableEq, Repr

/-- Default string conversion (Python `str` via `format`) of a `PyValue`. -/
def PyValue.render : PyValue → String
  | .str s => s
  | .int n => toString n

/-- Lexicographic code-point comparison of character lists, the order
Python uses when `sorted` compares string keys. -/
def strLeb : List Char → List Char → Bool
  | [], _ => true
  | _ :: _, [] => false
  | a :: as, b :: bs => if a < b then true else if b < a then false else strLeb as bs

theorem strLeb_cons (a b : Char) (as bs : List Char) :
    strLeb (a :: as) (b :: bs) = true ↔ a < b ∨ (a = b ∧ strLeb as bs = true) := by
  simp only [strLeb]
  split_ifs with h1 h2
  · simp [h1]
  · have hne : a ≠ b := fun h => absurd (h ▸ h2) (lt_irrefl a)
    simp [h1, hne]
  · have heq : a = b := le_antisymm (not_lt.mp h2) (not_lt.mp h1)
    simp [h1, heq]

theorem strLeb_total (as : List Char) :
    ∀ bs, strLeb as bs = true ∨ strLeb bs as = true := by
  induction as with
  | nil => intro bs; left; rfl
  | cons a as ih =>
    intro bs
    cases bs with
    | nil => right; rfl
    | cons b bs =>
      rcases lt_trichotomy a b with h | h | h
      · left; exact (strLeb_cons a b as bs).mpr (Or.inl h)
      · rcases ih bs with h2 | h2
        · left; exact (strLeb_cons a b as bs).mpr (Or.inr ⟨h, h2⟩)
        · right; exact (strLeb_cons b a bs as).mpr (Or.inr ⟨h.symm, h2⟩)
      · right; exact (strLeb_cons b a bs as).mpr (Or.inl h)

theorem strLeb_trans (as : List Char) :
    ∀ bs cs, strLeb as bs = true → strLeb bs cs = true → strLeb as cs = true := by
  induction as with
  | nil => intro bs cs _ _; rfl
  | cons a as ih =>
    intro bs cs hab hbc
    cases bs with
    | nil => exact absurd hab (by simp [strLeb])
    | cons b bs =>
      cases cs with
      | nil => exact absurd hbc (by simp [strLeb])
      | cons c cs =>
        rcases (strLeb_cons a b as bs).mp hab with h1 | ⟨h1, h1r⟩ <;>
          rcases (strLeb_cons b c bs cs).mp hbc with h2 | ⟨h2, h2r⟩
        · exact (strLeb_cons a c as cs).mpr (Or.inl (lt_trans h1 h2))
        · exact (strLeb_cons a c as cs).mpr (Or.inl (h2 ▸ h1))
        · exact (strLeb_cons a c as cs).mpr (Or.inl (h1 ▸ h2))
        · exact (strLeb_cons a c as cs).mpr (Or.inr ⟨h1.trans h2, ih bs cs h1r h2r⟩)

theorem strLeb_antisymm (as : List Char) :
    ∀ bs, strLeb as bs = true → strLeb bs as = true → as = bs := by
  induction as with
  | nil =>
    intro bs _ hba
    cases bs with
    | nil => rfl
    | cons b bs => exact absurd hba (by simp [strLeb])
  | cons a as ih =>
    intro bs hab hba
    cases bs with
    | nil => exact absurd hab (by simp [strLeb])
    | cons b bs =>
      rcases (strLeb_cons a b as bs).mp hab with h1 | ⟨h1, h1r⟩
      · rcases (strLeb_cons b a bs as).mp hba with h2 | ⟨h2, _⟩
        · exact absurd h2 (lt_asymm h1)
        · exact absurd (h2 ▸ h1) (lt_irrefl b)
      · rcases (strLeb_cons b a bs as).mp hba with h2 | ⟨_, h2r⟩
        · exact absurd (h1 ▸ h2) (lt_irrefl b)
        · exact h1 ▸ congrArg (List.cons a) (ih bs h1r h2r)

/-- Comparison used by `sorted(kwargs.items(), key=lambda i: i[0])`:
pairs are ordered by their key, lexicographically by code point. -/
def keyLe (a b : String × PyValue) : Prop := strLeb a.1.data b.1.data = true

instance : DecidableRel keyLe := fun a b =>
  inferInstanceAs (Decidable (strLeb a.1.data b.1.data = true))

instance : IsTotal (String × PyValue) keyLe := ⟨fun a b => strLeb_total a.1.data b.1.data⟩

instance : IsTrans (String × PyValue) keyLe :=
  ⟨fun a b c h h2 => strLeb_trans a.1.data b.1.data c.1.data h h2⟩

/-- Strict key order: the order in which distinct keys appear in the
emitted line. -/
def keyLt (a b : String × PyValue) : Prop := keyLe a b ∧ a.1 ≠ b.1

instance : IsAntisymm (String × PyValue) keyLt :=
  ⟨fun a b h h2 =>
    absurd (String.ext (strLeb_antisymm a.1.data b.1.data h.1 h2.1)) h.2⟩

/-- Rendering of one sorted entry: `'{k}="{v}"'.format(k=k, v=v)`. -/
def renderPair (kv : String × PyValue) : String :=
  kv.1 ++ "=\"" ++ kv.2.render ++ "\""

/-- The log line built by `audit_log`: the keyword arguments are sorted by
key, each pair is rendered as `key="value"`, the rendered pairs are joined
with a comma and a space, and the event name plus a colon and a space come
first. -/
def audit_log_message (name : String) (kwargs : List (String × PyValue)) : String :=
  let d := List.insertionSort keyLe kwargs
  let payload := String.intercalate ", " (d.map renderPair)
  name ++ ": " ++ payload

/-- The logging sink: the lines emitted so far, in emission order. -/
structure LogState where
  lines : List String
deriving DecidableEq, Repr

/-- `audit_log(name, **kwargs)`: formats the message and performs the single
`log.info(message)` call, returning `None` (the unit value). -/
def audit_log (name : String) (kwargs : List (String × PyValue)) (st : LogState) :
    Unit × LogState :=
  ((), ⟨st.lines ++ [audit_log_message name kwargs]⟩)

/-! ### pavelib/servers.py -/

/-- `DEFAULT_PORT = {"lms": 8000, "studio": 8001}`, as a lookup. -/
def DEFAULT_PORT (system : String) : Option Nat :=
  if system = "lms" then some 8000 else if system = "studio" then some 8001 else none

/-- `DEFAULT_SETTINGS = 'devstack'`. -/
def DEFAULT_SETTINGS : String := "devstack"

/-- Python truth test on an optional string argument: `None` and the empty
string are falsy, every other string is truthy. -/
def pyFalsy : Option String → Bool
  | none => true
  | some s => s.isEmpty

/-- Outcome of `run_server`: either the early `exit(1)` after printing the
error message to stderr (taken before any argument list is built or any
process launched), or the argument lists handed to the external helpers.
`assetTask` is `some args` exactly when
`call_task('pavelib.assets.update_assets', args=args)` is invoked, and
`runArgs` is the argument list passed to `django_cmd(system, *args)` and
run as a process. -/
inductive RunServerResult where
  | err (msg : String) (code : Nat)
  | ok (assetTask : Option (List String)) (system : String) (runArgs : List String)
deriving DecidableEq, Repr

/-- The asset-task argument list of a result (`none` on the error path or
when the asset task is not invoked). -/
def RunServerResult.assetTaskArgs : RunServerResult → Option (List String)
  | .err _ _ => none
  | .ok a _ _ => a

/-- The `runserver` argument list of a result (empty on the error path). -/
def RunServerResult.runserverArgs : RunServerResult → List String
  | .err _ _ => []
  | .ok _ _ args => args

/-- `run_server(system, settings, asset_settings, collect_static, port,
no_contracts)` from `pavelib/servers.py`.  The `DEFAULT_PORT` lookup is
only reached after `system` has been validated, so the `getD 0` default of
the modelled lookup is never used. -/
def run_server (system : String) (settings : Option String)
    (asset_settings : Option String) (collect_static : Bool)
    (port : Option Nat) (no_contracts : Bool) : RunServerResult :=
  if ¬ (system = "lms" ∨ system = "studio") then
    .err "System must be either lms or studio" 1
  else
    let settings2 := if pyFalsy settings then some DEFAULT_SETTINGS else settings
    let asset_settings2 := if pyFalsy settings then some DEFAULT_SETTINGS else asset_settings
    let assetTask : Option (List String) :=
      if pyFalsy asset_settings2 then none
      else
        some ([system, "--settings=" ++ asset_settings2.getD "", "--watch"] ++
          (if ¬ collect_static then ["--skip-collect"] else []))
    let port2 : Nat :=
      match port with
      | none => (DEFAULT_PORT system).getD 0
      | some p => p
    let args := [settings2.getD "", "runserver", "--traceback", "--pythonpath=.",
      "0.0.0.0:" ++ toString port2]
    let args2 := if ¬ no_contracts then args ++ ["--contracts"] else args
    .ok assetTask system args2

/-! ### Shared lemmas -/

theorem nodup_keys_insertionSort (kwargs : List (String × PyValue))
    (h : (kwargs.map Prod.fst).Nodup) :
    List.Sorted keyLt (List.insertionSort keyLe kwargs) := by
  have hs : List.Sorted keyLe (List.insertionSort keyLe kwargs) :=
    List.sorted_insertionSort keyLe kwargs
  have hnd : ((List.insertionSort keyLe kwargs).map Prod.fst).Nodup :=
    ((List.perm_insertionSort keyLe kwargs).map Prod.fst).nodup_iff.mpr h
  have hp : (List.insertionSort keyLe kwargs).Pairwise (fun a b => a.1 ≠ b.1) :=
    List.pairwise_map.mp hnd
  exact hs.and hp

/-! ### Claims about the audit-log formatter -/

/-- C1: for every name and every finite mapping of string keys to values,
the emitted line is the name, a colon and a space, then the entries sorted
by key in ascending code-point order, each rendered as `key="value"` and
joined with a comma and a space. -/
theorem audit_log_wire_format (name : String) (kwargs : List (String × PyValue))
    (h : (kwargs.map Prod.fst).Nodup) :
    ∃ l, l.Perm kwargs ∧ List.Sorted keyLt l ∧
      audit_log_message name kwargs
        = name ++ ": " ++ String.intercalate ", " (l.map renderPair) := by
  exact ⟨List.insertionSort keyLe kwargs, List.perm_insertionSort keyLe kwargs,
    nodup_keys_insertionSort kwargs h, rfl⟩

/-- Witness for C1 at a concrete input. -/
theorem audit_log_wire_format_witness :
    ∃ l, l.Perm [("order_id", PyValue.int 42), ("amount", PyValue.str "10.00")] ∧
      List.Sorted keyLt l ∧
      audit_log_message "order_created" [("order_id", PyValue.int 42), ("amount", PyValue.str "10.00")]
        = "order_created" ++ ": " ++ String.intercalate ", " (l.map renderPair) :=
  audit_log_wire_format "order_created"
    [("order_id", PyValue.int 42), ("amount", PyValue.str "10.00")] (by decide)

/-- C2: for a fixed name and fixed field content, the emitted line does not
depend on the order in which the fields were supplied: any permutation of
the same fields yields the same string (and a re-run with identical
arguments trivially does as well, the formatter being a pure function). -/
theorem audit_log_order_independent (name : String)
    (kwargs1 kwargs2 : List (String × PyValue)) (hperm : kwargs1.Perm kwargs2)
    (h : (kwargs1.map Prod.fst).Nodup) :
    audit_log_message name kwargs1 = audit_log_message name kwargs2 := by
  have h2 : (kwargs2.map Prod.fst).Nodup := (hperm.map Prod.fst).nodup_iff.mp h
  have e : List.insertionSort keyLe kwargs1 = List.insertionSort keyLe kwargs2 := by
    refine List.eq_of_perm_of_sorted ?_ (nodup_keys_insertionSort kwargs1 h)
      (nodup_keys_insertionSort kwargs2 h2)
    exact (List.perm_insertionSort keyLe kwargs1).trans
      (hperm.trans (List.perm_insertionSort keyLe kwargs2).symm)
  simp only [audit_log_message, e]

/-- Witness for C2 at a concrete input. -/
theorem audit_log_order_independent_witness :
    audit_log_message "x" [("b", PyValue.int 1), ("a", PyValue.int 2)]
      = audit_log_message "x" [("a", PyValue.int 2), ("b", PyValue.int 1)] :=
  audit_log_order_independent "x" [("b", PyValue.int 1), ("a", PyValue.int 2)]
    [("a", PyValue.int 2), ("b", PyValue.int 1)] (by decide) (by decide)

/-- C3: with an empty field mapping the payload is empty and the line is
the name followed by a colon and a single trailing space; in particular
the event `payment_received` with no fields emits `"payment_received: "`. -/
theorem audit_log_empty_fields (name : String) :
    audit_log_message name [] = name ++ ": " ∧
    audit_log_message "payment_received" [] = "payment_received: " := by
  refine ⟨?_, by decide⟩
  show name ++ ": " ++ "" = name ++ ": "
  exact String.append_empty _

/-- C4: the two concrete examples from the spec: integer values render by
default string conversion and keys appear in ascending order. -/
theorem audit_log_concrete_examples :
    audit_log_message "order_created" [("order_id", PyValue.int 42), ("amount", PyValue.str "10.00")]
      = "order_created: amount=\"10.00\", order_id=\"42\"" ∧
    audit_log_message "x" [("b", PyValue.int 1), ("a", PyValue.int 2), ("c", PyValue.int 3)]
      = "x: a=\"2\", b=\"1\", c=\"3\"" := by
  exact ⟨by decide, by decide⟩

/-- C5: no quote-escaping is performed inside rendered values: even when a
value renders to a string containing a double quote, that string appears
verbatim between the surrounding quotes of its `key="value"` pair. -/
theorem audit_log_no_quote_escaping (name k : String) (v : PyValue)
    (_h : '\"' ∈ v.render.data) :
    audit_log_message name [(k, v)] = name ++ ": " ++ (k ++ "=\"" ++ v.render ++ "\"") :=
  rfl

/-- Witness for C5 at a concrete input whose value contains a double quote. -/
theorem audit_log_no_quote_escaping_witness :
    audit_log_message "event" [("k", PyValue.str "a\"b")]
      = "event" ++ ": " ++ ("k" ++ "=\"" ++ (PyValue.str "a\"b").render ++ "\"") :=
  audit_log_no_quote_escaping "event" "k" (PyValue.str "a\"b") (by decide)

/-- C6: a call to `audit_log` returns the unit value (Python `None`) and
its only effect is to append exactly one entry, the whole formatted line,
to the logging sink. -/
theorem audit_log_single_emission (name : String) (kwargs : List (String × PyValue))
    (st : LogState) :
    audit_log name kwargs st = ((), ⟨st.lines ++ [audit_log_message name kwargs]⟩) ∧
    (audit_log name kwargs st).2.lines.length = st.lines.length + 1 := by
  exact ⟨rfl, by simp [audit_log]⟩

/-- C7: `audit_log` is total and has no failure branch: for every name,
every field list (no validation hypothesis at all) and every sink state it
completes, emitting a single well-formed line of the shape
`name ++ ": " ++ payload`. -/
theorem audit_log_total_no_failure (name : String) (kwargs : List (String × PyValue))
    (st : LogState) :
    ∃ payload, audit_log_message name kwargs = name ++ ": " ++ payload ∧
      (audit_log name kwargs st).2.lines = st.lines ++ [name ++ ": " ++ payload] :=
  ⟨String.intercalate ", " ((List.insertionSort keyLe kwargs).map renderPair), rfl, rfl⟩

/-! ### Claims about the development-server launcher -/

/-- C8: for every system other than `lms` and `studio`, `run_server` takes
the early error path — the message about valid systems and exit status 1 —
before building any argument list or launching any process; for `lms` and
`studio` that path is not taken and an ok outcome is produced. -/
theorem run_server_validates_system (system : String)
    (settings asset_settings : Option String) (cs : Bool) (port : Option Nat)
    (nc : Bool) :
    (¬ (system = "lms" ∨ system = "studio") →
      run_server system settings asset_settings cs port nc
        = .err "System must be either lms or studio" 1) ∧
    ((system = "lms" ∨ system = "studio") →
      ∃ a args, run_server system settings asset_settings cs port nc
        = .ok a system args) := by
  constructor
  · intro h
    simp only [run_server, if_pos h]
  · intro h
    simp only [run_server, if_neg (not_not_intro h)]
    exact ⟨_, _, rfl⟩

/-- Witness for C8 at the concrete invalid system `cms`. -/
theorem run_server_validates_system_witness :
    run_server "cms" none none false none false
      = .err "System must be either lms or studio" 1 :=
  (run_server_validates_system "cms" none none false none false).1 (by decide)

/-- C9: whenever the settings argument is falsy (not provided), both the
settings and the asset settings are reset to the default module `devstack`:
a caller-supplied asset-settings value is discarded (the result does not
depend on it), the asset-update task is invoked with the default settings,
and the runserver command uses the default settings as well. -/
theorem run_server_default_settings_override (system : String)
    (settings asset_settings : Option String) (cs : Bool) (port : Option Nat)
    (nc : Bool) (hsys : system = "lms" ∨ system = "studio")
    (hset : pyFalsy settings = true) :
    run_server system settings asset_settings cs port nc
      = run_server system settings none cs port nc ∧
    (run_server system settings asset_settings cs port nc).assetTaskArgs
      = some ([system, "--settings=" ++ DEFAULT_SETTINGS, "--watch"] ++
          (if ¬ cs then ["--skip-collect"] else [])) ∧
    ((run_server system settings asset_settings cs port nc).runserverArgs).head?
      = some DEFAULT_SETTINGS := by
  have hfd : pyFalsy (some DEFAULT_SETTINGS) = false := by decide
  refine ⟨?_, ?_, ?_⟩
  · simp only [run_server, if_neg (not_not_intro hsys), hset, if_true]
  · simp only [run_server, if_neg (not_not_intro hsys), hset, if_true, hfd,
      Bool.false_eq_true, if_false, RunServerResult.assetTaskArgs, Option.getD]
  · simp only [run_server, if_neg (not_not_intro hsys), hset, if_true, hfd,
      Bool.false_eq_true, if_false, RunServerResult.runserverArgs]
    cases nc <;> simp [Option.getD]

/-- Witness for C9 at a concrete input with omitted settings. -/
theorem run_server_default_settings_override_witness :
    run_server "lms" none (some "custom_assets") true none true
      = run_server "lms" none none true none true ∧
    (run_server "lms" none (some "custom_assets") true none true).assetTaskArgs
      = some (["lms", "--settings=" ++ DEFAULT_SETTINGS, "--watch"] ++
          (if ¬ true then ["--skip-collect"] else [])) ∧
    ((run_server "lms" none (some "custom_assets") true none true).runserverArgs).head?
      = some DEFAULT_SETTINGS :=
  run_server_default_settings_override "lms" none (some "custom_assets") true none true
    (by decide) (by decide)

/-- C10: for a valid system the runserver argument list is the settings
module, `runserver`, `--traceback`, `--pythonpath=.` and the bind address
`0.0.0.0:<port>`, with `--contracts` appended exactly when contracts are
enabled; when no port is supplied the per-system default (8000 for lms,
8001 for studio) is used, and a supplied port is used as given. -/
theorem run_server_runserver_arglist (system : String)
    (settings asset_settings : Option String) (cs : Bool) (port : Option Nat)
    (nc : Bool) (hsys : system = "lms" ∨ system = "studio") :
    ∃ s p, (run_server system settings asset_settings cs port nc).runserverArgs
        = [s, "runserver", "--traceback", "--pythonpath=.", "0.0.0.0:" ++ toString p]
          ++ (if nc then [] else ["--contracts"]) ∧
      (port = none → p = if system = "lms" then 8000 else 8001) ∧
      (∀ q, port = some q → p = q) := by
  refine ⟨(if pyFalsy settings then some DEFAULT_SETTINGS else settings).getD "",
    match port with
    | none => (DEFAULT_PORT system).getD 0
    | some q => q, ?_, ?_, ?_⟩
  · simp only [run_server, if_neg (not_not_intro hsys), RunServerResult.runserverArgs]
    cases nc <;> simp
  · intro hp
    subst hp
    rcases hsys with rfl | rfl <;> decide
  · intro q hq
    subst hq
    rfl

/-- Witness for C10 at a concrete input with no port supplied. -/
theorem run_server_runserver_arglist_witness :
    ∃ s p, (run_server "studio" (some "aws") none true none false).runserverArgs
        = [s, "runserver", "--traceback", "--pythonpath=.", "0.0.0.0:" ++ toString p]
          ++ (if false then [] else ["--contracts"]) ∧
      ((none : Option Nat) = none → p = if "studio" = "lms" then 8000 else 8001) ∧
      (∀ q, (none : Option Nat) = some q → p = q) :=
  run_server_runserver_arglist "studio" (some "aws") none true none false (by decide)
